import Mathlib

/-!
Verification of the psycopg database client layer of tortoise-orm
(`tortoise/backends/psycopg/client.py`) against its natural-language
specification.  The Python code is shallowly embedded: the client and
transaction-wrapper state become Lean structures, coroutines become pure
state-passing functions whose driver-level effects (pool open results,
transaction begin/commit acknowledgements) are supplied as explicit
oracle arguments, and `await` suspension points become explicit lists of
observable intermediate states.
-/

deriving instance DecidableEq for Except

namespace TortoisePsycopg

/-! ### Backend (driver-level) exceptions

Kinds of exceptions the psycopg driver / pool can raise at the client
boundary.  psycopg generates one class per sqlstate, each deriving
directly from its DB-API base, so the `except` clauses in the source
match exactly the classes they name (plus, for the DB-API base class
`IntegrityError`, every class-23 constraint violation).  `poolTimeout`
models `psycopg_pool.PoolTimeout`. -/

inductive BackendError where
  | syntaxErrorOrAccessRuleViolation
  | dataException
  | undefinedTable
  | uniqueViolation
  | foreignKeyViolation
  | checkViolation
  | invalidTransactionState
  | inFailedSqlTransaction
  | invalidCatalogName
  | connectionFailure
  | invalidPassword
  | poolTimeout
  deriving DecidableEq, Repr

/-- The four-error taxonomy of `tortoise.exceptions` used by the client layer. -/
inductive TortoiseErrorKind where
  | operationalError
  | integrityError
  | transactionManagementError
  | dbConnectionError
  deriving DecidableEq, Repr

/-- An exception as seen by a caller of the client layer: a tortoise taxonomy
error (with its message), a backend exception that propagated untranslated, or
a plain Python `RuntimeError`. -/
inductive RaisedError where
  | tortoise (kind : TortoiseErrorKind) (msg : String)
  | backend (e : BackendError)
  | runtime (msg : String)
  deriving DecidableEq, Repr

/-- Whether a raised exception is one of the four taxonomy errors. -/
def RaisedError.isTaxonomy : RaisedError → Bool
  | .tortoise _ _ => true
  | _ => false

/-- Message text carried by a translated backend exception (the source wraps
the original exception object; we use its class name). -/
def backendMsg : BackendError → String
  | .syntaxErrorOrAccessRuleViolation => "SyntaxErrorOrAccessRuleViolation"
  | .dataException => "DataException"
  | .undefinedTable => "UndefinedTable"
  | .uniqueViolation => "UniqueViolation"
  | .foreignKeyViolation => "ForeignKeyViolation"
  | .checkViolation => "CheckViolation"
  | .invalidTransactionState => "InvalidTransactionState"
  | .inFailedSqlTransaction => "InFailedSqlTransaction"
  | .invalidCatalogName => "InvalidCatalogName"
  | .connectionFailure => "ConnectionFailure"
  | .invalidPassword => "InvalidPassword"
  | .poolTimeout => "PoolTimeout"

/-! ### The exception translator `PsycopgClient._translate_exceptions` -/

/-- Backend errors caught by the first `except` clause of
`_translate_exceptions`: `(SyntaxErrorOrAccessRuleViolation, DataException,
UndefinedTable)`. -/
def operationalCatch : BackendError → Bool
  | .syntaxErrorOrAccessRuleViolation => true
  | .dataException => true
  | .undefinedTable => true
  | _ => false

/-- Backend errors caught by `except psycopg.errors.IntegrityError` (the DB-API
base of every class-23 constraint violation). -/
def integrityCatch : BackendError → Bool
  | .uniqueViolation => true
  | .foreignKeyViolation => true
  | .checkViolation => true
  | _ => false

/-- Backend errors caught by the third `except` clause:
`(InvalidTransactionState, InFailedSqlTransaction)`. -/
def transactionCatch : BackendError → Bool
  | .invalidTransactionState => true
  | .inFailedSqlTransaction => true
  | _ => false

/-- `PsycopgClient._translate_exceptions` applied to one backend exception:
the three `except` clauses in source order; anything uncaught propagates
unchanged. -/
def translateError (e : BackendError) : RaisedError :=
  if operationalCatch e then .tortoise .operationalError (backendMsg e)
  else if integrityCatch e then .tortoise .integrityError (backendMsg e)
  else if transactionCatch e then .tortoise .transactionManagementError (backendMsg e)
  else .backend e

/-- Modelled from the spec: the `translate_exceptions` decorator (defined in
`tortoise.backends.base_postgres.client`, outside the excerpt) is "a
decorator/wrapper applied uniformly to every driver-facing call" that applies
the client's exception translator around the wrapped coroutine; it only
transforms backend exceptions, everything else propagates. -/
def translateRaised : RaisedError → RaisedError
  | .backend e => translateError e
  | r => r

/-! ### The transaction wrapper `TransactionWrapper`

State of one transaction wrapper: the identity of the bound connection
(`self._connection`), the identity of its private `asyncio.Lock`, the
transaction handle (`None` before `begin`), and the `finalized` flag.
Driver acknowledgements of `__aenter__`/`__aexit__` are oracle inputs. -/

structure TxWrapper where
  connection : Nat
  lock : Nat
  transaction : Option Nat
  finalized : Bool
  deriving DecidableEq, Repr

/-- `TransactionManagementError("Transaction is in invalid state")`. -/
def invalidStateErr : RaisedError :=
  .tortoise .transactionManagementError "Transaction is in invalid state"

/-- `TransactionManagementError("Transaction already finalised")`. -/
def finalisedErr : RaisedError :=
  .tortoise .transactionManagementError "Transaction already finalised"

/-- `TransactionWrapper.__init__(connection)`: binds the parent's
`_connection`, makes a fresh private lock, transaction handle `None`,
`finalized = False`. -/
def TxWrapper.mkFrom (parentConnection : Nat) (freshLock : Nat) : TxWrapper :=
  { connection := parentConnection, lock := freshLock,
    transaction := none, finalized := false }

/-- `TransactionWrapper._in_transaction`: wraps itself in a brand-new
`TransactionWrapper(self)` (same `_connection`, fresh lock). -/
def TxWrapper.inTransaction (w : TxWrapper) (freshLock : Nat) : TxWrapper :=
  TxWrapper.mkFrom w.connection freshLock

/-- `TransactionWrapper.begin`: stores a fresh transaction context manager in
`self._transaction`, then awaits `__aenter__`; decorated with
`translate_exceptions`. -/
def TxWrapper.begin (w : TxWrapper) (newTx : Nat) (driver : Except BackendError Unit) :
    Except RaisedError Unit × TxWrapper :=
  let w' : TxWrapper := { w with transaction := some newTx }
  match driver with
  | .ok _ => (.ok (), w')
  | .error e => (.error (translateRaised (.backend e)), w')

/-- `TransactionWrapper.commit`: guard `not self._transaction`, guard
`self._finalized`, await `self._transaction.__aexit__(None, None, None)`,
and only then set `self._finalized = True`. -/
def TxWrapper.commit (w : TxWrapper) (driver : Except BackendError Unit) :
    Except RaisedError Unit × TxWrapper :=
  if w.transaction.isNone then (.error invalidStateErr, w)
  else if w.finalized then (.error finalisedErr, w)
  else
    match driver with
    | .ok _ => (.ok (), { w with finalized := true })
    | .error e => (.error (.backend e), w)

/-- `TransactionWrapper.rollback`: same guards as `commit`, then awaits
`self._transaction.__aexit__(Rollback, Rollback(), None)` and only then sets
`self._finalized = True`. -/
def TxWrapper.rollback (w : TxWrapper) (driver : Except BackendError Unit) :
    Except RaisedError Unit × TxWrapper :=
  if w.transaction.isNone then (.error invalidStateErr, w)
  else if w.finalized then (.error finalisedErr, w)
  else
    match driver with
    | .ok _ => (.ok (), { w with finalized := true })
    | .error e => (.error (.backend e), w)

/-- One call against a transaction wrapper, with its driver acknowledgement. -/
inductive TxOp where
  | beginOp (newTx : Nat) (driver : Except BackendError Unit)
  | commitOp (driver : Except BackendError Unit)
  | rollbackOp (driver : Except BackendError Unit)
  deriving Repr

/-- Run one operation against a wrapper. -/
def TxWrapper.step (w : TxWrapper) : TxOp → Except RaisedError Unit × TxWrapper
  | .beginOp t d => w.begin t d
  | .commitOp d => w.commit d
  | .rollbackOp d => w.rollback d

/-- Number of `commit`/`rollback` calls in an operation sequence that return
successfully. -/
def finalizeSuccesses (w : TxWrapper) : List TxOp → Nat
  | [] => 0
  | op :: ops =>
      let r := w.step op
      let here : Nat :=
        match op, r.1 with
        | .commitOp _, .ok _ => 1
        | .rollbackOp _, .ok _ => 1
        | _, _ => 0
      here + finalizeSuccesses r.2 ops

lemma TxWrapper.step_preserves_finalized (w : TxWrapper) (op : TxOp)
    (h : w.finalized = true) : (w.step op).2.finalized = true := by
  cases op with
  | beginOp t d => cases d <;> simp [TxWrapper.step, TxWrapper.begin, h]
  | commitOp d =>
      simp only [TxWrapper.step, TxWrapper.commit, h]
      by_cases ht : w.transaction.isNone <;> simp [ht, h]
  | rollbackOp d =>
      simp only [TxWrapper.step, TxWrapper.rollback, h]
      by_cases ht : w.transaction.isNone <;> simp [ht, h]

lemma finalized_no_more_successes (ops : List TxOp) :
    ∀ w : TxWrapper, w.finalized = true → finalizeSuccesses w ops = 0 := by
  induction ops with
  | nil => intro w _; rfl
  | cons op ops ih =>
      intro w h
      have hstep := TxWrapper.step_preserves_finalized w op h
      have hzero : (match op, (w.step op).1 with
          | .commitOp _, .ok _ => (1 : Nat)
          | .rollbackOp _, .ok _ => 1
          | _, _ => 0) = 0 := by
        cases op with
        | beginOp t d => simp
        | commitOp d =>
            have : (w.commit d).1 ≠ .ok () := by
              simp only [TxWrapper.commit, h]
              by_cases ht : w.transaction.isNone <;> simp [ht]
            simp only [TxWrapper.step]
            cases hr : (w.commit d).1 with
            | ok u => cases u; exact absurd hr this
            | error e => simp
        | rollbackOp d =>
            have : (w.rollback d).1 ≠ .ok () := by
              simp only [TxWrapper.rollback, h]
              by_cases ht : w.transaction.isNone <;> simp [ht]
            simp only [TxWrapper.step]
            cases hr : (w.rollback d).1 with
            | ok u => cases u; exact absurd hr this
            | error e => simp
      simp only [finalizeSuccesses, hzero, Nat.zero_add]
      exact ih _ hstep

lemma at_most_one_finalize (ops : List TxOp) :
    ∀ w : TxWrapper, w.finalized = false → finalizeSuccesses w ops ≤ 1 := by
  induction ops with
  | nil => intro w _; exact Nat.zero_le 1
  | cons op ops ih =>
      intro w h
      cases op with
      | beginOp t d =>
          have hfin : ((w.step (.beginOp t d)).2).finalized = false := by
            cases d <;> simp [TxWrapper.step, TxWrapper.begin, h]
          simpa [finalizeSuccesses] using ih _ hfin
      | commitOp d =>
          simp only [finalizeSuccesses]
          cases hr : (w.step (.commitOp d)).1 with
          | ok u =>
              cases u
              have hfin : ((w.step (.commitOp d)).2).finalized = true := by
                simp only [TxWrapper.step, TxWrapper.commit] at hr ⊢
                by_cases ht : w.transaction.isNone
                · simp [ht] at hr
                · simp only [ht, h, if_false, Bool.false_eq_true, if_neg] at hr ⊢
                  cases d with
                  | ok u => simp
                  | error e => simp at hr
              rw [finalized_no_more_successes ops _ hfin]
          | error e => simpa using ih _ (by
              simp only [TxWrapper.step, TxWrapper.commit] at hr ⊢
              by_cases ht : w.transaction.isNone
              · simpa [ht] using h
              · simp only [ht, h, if_false, Bool.false_eq_true, if_neg] at hr ⊢
                cases d with
                | ok u => simp at hr
                | error e2 => simpa using h)
      | rollbackOp d =>
          simp only [finalizeSuccesses]
          cases hr : (w.step (.rollbackOp d)).1 with
          | ok u =>
              cases u
              have hfin : ((w.step (.rollbackOp d)).2).finalized = true := by
                simp only [TxWrapper.step, TxWrapper.rollback] at hr ⊢
                by_cases ht : w.transaction.isNone
                · simp [ht] at hr
                · simp only [ht, h, if_false, Bool.false_eq_true, if_neg] at hr ⊢
                  cases d with
                  | ok u => simp
                  | error e => simp at hr
              rw [finalized_no_more_successes ops _ hfin]
          | error e => simpa using ih _ (by
              simp only [TxWrapper.step, TxWrapper.rollback] at hr ⊢
              by_cases ht : w.transaction.isNone
              · simpa [ht] using h
              · simp only [ht, h, if_false, Bool.false_eq_true, if_neg] at hr ⊢
                cases d with
                | ok u => simp at hr
                | error e2 => simpa using h)

/-! ### The pooled client `PsycopgClient`

Python-level truthiness and the `ssl` entry of the `extra` options, as
tested by `create_connection`: `if ssl:` then
`isinstance(ssl, SSLContext) and ssl.check_hostname`. -/

/-- The value stored under the `"ssl"` key of `extra`: either an
`ssl.SSLContext` (with its `check_hostname` attribute) or a plain boolean. -/
inductive SSLParam where
  | context (checkHostname : Bool)
  | pyBool (b : Bool)
  deriving DecidableEq, Repr

/-- Python truthiness of the `ssl` value (an `SSLContext` object is truthy). -/
def SSLParam.truthy : SSLParam → Bool
  | .context _ => true
  | .pyBool b => b

/-- `isinstance(ssl, SSLContext)`. -/
def SSLParam.isSSLContext : SSLParam → Bool
  | .context _ => true
  | .pyBool _ => false

/-- `ssl.check_hostname` (only an `SSLContext` has it set). -/
def SSLParam.hostnameChecked : SSLParam → Bool
  | .context ch => ch
  | .pyBool _ => false

/-- The `sslmode` server setting written by `create_connection` for a given
`ssl` entry, `none` meaning the key is not written. -/
def sslmodeOf : Option SSLParam → Option String
  | none => none
  | some s =>
      if s.truthy then
        if s.isSSLContext && s.hostnameChecked then some "verify-full"
        else some "require"
      else none

/-- Python truthiness of an optional string (`None` and `""` are falsy). -/
def optStrTruthy : Option String → Bool
  | none => false
  | some s => !s.isEmpty

/-- The `server_settings` dict of the client (the keys `create_connection`
writes). -/
structure ServerSettings where
  searchPathOption : Option String
  applicationName : String
  sslmode : Option String
  deriving DecidableEq, Repr

/-- `self._template`: the stored parameter template from which pools are
constructed (conninfo fields, pool sizes, and the `extra` options including
the pool-operation timeout). -/
structure PoolTemplate where
  host : String
  port : Nat
  user : String
  password : String
  dbname : Option String
  settings : ServerSettings
  minSize : Nat
  maxSize : Nat
  timeout : Nat
  deriving DecidableEq, Repr

/-- Static configuration of a `PsycopgClient` (constructor arguments plus the
`extra` options relevant to `create_connection`). -/
structure ClientConfig where
  host : String
  port : Nat
  user : String
  password : String
  database : String
  schema : Option String
  applicationName : String
  poolMinsize : Nat
  poolMaxsize : Nat
  extraTimeout : Option Nat
  extraSSL : Option SSLParam
  deriving DecidableEq, Repr

/-- Mutable state of a `PsycopgClient`, with pool objects tracked by identity:
`pool` is `self._pool`, `template` is `self._template`, `settings` is
`self.server_settings`, `poolsClosed` records which pool objects have had
`close` run to completion, `poolsMade` records from which template each pool
object was constructed, and `lastOpenTimeout` records the `timeout` argument
of the last `pool.open(wait=True, timeout=...)` liveness probe. -/
structure ClientState where
  pool : Option Nat
  template : Option PoolTemplate
  settings : ServerSettings
  poolsClosed : List Nat
  poolsMade : List (Nat × PoolTemplate)
  lastOpenTimeout : Option Nat
  deriving DecidableEq, Repr

/-- `PsycopgClient.default_timeout`. -/
def defaultTimeout : Nat := 30

/-- Outcome of the driver/pool side of `create_connection`: pool construction
and the `open(wait=True, timeout=...)` liveness probe either succeed, or raise
a backend exception at one of the two awaits. -/
inductive PoolOpenResult where
  | ok
  | errAtCreate (e : BackendError)
  | errAtOpen (e : BackendError)
  deriving DecidableEq, Repr

namespace PsycopgClient

/-- The `server_settings` dict after the assignments at the top of
`create_connection`: `options` from the schema, `application_name`, and
`sslmode` only when an `ssl` entry is supplied and truthy. -/
def builtSettings (cfg : ClientConfig) (old : ServerSettings) : ServerSettings :=
  { searchPathOption :=
      if optStrTruthy cfg.schema then some ("-c search_path=" ++ cfg.schema.getD "")
      else none
    applicationName := cfg.applicationName
    sslmode :=
      match sslmodeOf cfg.extraSSL with
      | some m => some m
      | none => old.sslmode }

/-- The parameter template stored in `self._template` by `create_connection`. -/
def builtTemplate (cfg : ClientConfig) (withDb : Bool) (settings : ServerSettings) :
    PoolTemplate :=
  { host := cfg.host, port := cfg.port, user := cfg.user, password := cfg.password,
    dbname := if withDb then some cfg.database else none,
    settings := settings,
    minSize := cfg.poolMinsize, maxSize := cfg.poolMaxsize,
    timeout := cfg.extraTimeout.getD defaultTimeout }

/-- Body of `PsycopgClient.create_connection` (before the
`translate_exceptions` decorator): the idempotency guard raising
`RuntimeError("Connection pool already created")`, the settings/template
construction, pool creation, the liveness probe, and the `except
(InvalidCatalogName, PoolTimeout)` handler raising
`DBConnectionError` for the target database. -/
def createConnectionBody (cfg : ClientConfig) (withDb : Bool) (st : ClientState)
    (newPoolId : Nat) (res : PoolOpenResult) : Except RaisedError Unit × ClientState :=
  if st.pool.isSome then
    (.error (.runtime "Connection pool already created"), st)
  else
    let settings := builtSettings cfg st.settings
    let tmpl := builtTemplate cfg withDb settings
    let st1 : ClientState := { st with settings := settings, template := some tmpl }
    match res with
    | .errAtCreate e =>
        if e = .invalidCatalogName || e = .poolTimeout then
          (.error (.tortoise .dbConnectionError cfg.database), st1)
        else (.error (.backend e), st1)
    | .errAtOpen e =>
        let st2 : ClientState :=
          { st1 with pool := some newPoolId,
                     poolsMade := (newPoolId, tmpl) :: st1.poolsMade,
                     lastOpenTimeout := some tmpl.timeout }
        if e = .invalidCatalogName || e = .poolTimeout then
          (.error (.tortoise .dbConnectionError cfg.database), st2)
        else (.error (.backend e), st2)
    | .ok =>
        (.ok (), { st1 with pool := some newPoolId,
                            poolsMade := (newPoolId, tmpl) :: st1.poolsMade,
                            lastOpenTimeout := some tmpl.timeout })

/-- `PsycopgClient.create_connection` as seen by callers: the body wrapped by
the `translate_exceptions` decorator. -/
def create_connection (cfg : ClientConfig) (withDb : Bool) (st : ClientState)
    (newPoolId : Nat) (res : PoolOpenResult) : Except RaisedError Unit × ClientState :=
  let r := createConnectionBody cfg withDb st newPoolId res
  (match r.1 with
   | .error err => .error (translateRaised err)
   | x => x, r.2)

/-- `PsycopgClient._close` as the list of client states observable at each
`await` suspension point (the last entry is the final state): when a pool
exists, the pool reference is nulled before the suspending
`pool.close(10)`, so the state during that close already has `pool = none`;
when no pool exists nothing happens. -/
def closeStates (st : ClientState) : List ClientState :=
  match st.pool with
  | none => [st]
  | some p =>
      let st1 : ClientState := { st with pool := none }
      let st2 : ClientState := { st1 with poolsClosed := p :: st1.poolsClosed }
      [st1, st2]

/-- `PsycopgClient._expire_connections` as the list of client states
observable at each `await` suspension point (the last entry is the final
state): `await self._pool.close()` runs while `self._pool` still refers to
the old pool, then `self._pool = await self.create_pool(**self._template)`
constructs the replacement — still with the old (now closed) pool as the
current reference — and only the final assignment installs the new pool. -/
def expireStates (st : ClientState) (newPoolId : Nat) : List ClientState :=
  match st.pool, st.template with
  | some p, some tmpl =>
      let st2 : ClientState := { st with poolsClosed := p :: st.poolsClosed }
      let st3 : ClientState :=
        { st2 with pool := some newPoolId,
                   poolsMade := (newPoolId, tmpl) :: st2.poolsMade }
      [st, st2, st3]
  | _, _ => [st]

end PsycopgClient

/-! ### `execute_query` row-count computation -/

/-- `psycopg.pq.ExecStatus` values relevant to `execute_query`. -/
inductive ExecStatus where
  | tuplesOk
  | commandOk
  | otherStatus
  deriving DecidableEq, Repr

/-- State of the cursor right after `await cursor.execute(query, values)`:
the DB-API `rowcount` (−1 when the driver reports no count), the `rownumber`
fetch position (`None` when there is no result to fetch), the `pgresult`
status (`none` when there is no `pgresult`), and the rows that a `fetchall`
would return (tracked by identity). -/
structure CursorState where
  rowcount : Int
  rownumber : Option Nat
  pgresult : Option ExecStatus
  rows : List Nat
  deriving DecidableEq, Repr

/-- `int(a or b or 0)` with Python truthiness: `0` and `None` are falsy,
every other integer — including `-1` — is truthy. -/
def pyIntOr (a : Int) (b : Option Nat) : Int :=
  if a ≠ 0 then a
  else
    match b with
    | some n => if n ≠ 0 then (n : Int) else 0
    | none => 0

/-- The result of `PsycopgClient.execute_query` on a cursor in the given
post-`execute` state: `rowcount = int(cursor.rowcount or cursor.rownumber or
0)`, and rows are fetched only when `cursor.pgresult` exists with status
`TUPLES_OK`. -/
def executeQueryResult (cur : CursorState) : Int × List Nat :=
  ( pyIntOr cur.rowcount cur.rownumber,
    if cur.pgresult = some ExecStatus.tuplesOk then cur.rows else [] )

/-- Modelled from the spec (the claim side of C5, for comparison with
`executeQueryResult`): "Row count must come from the driver-reported count;
if unavailable, fall back to returned-row position, else zero", where the
driver-reported count is unavailable exactly when DB-API `rowcount` is `-1`
and the returned-row position is unavailable exactly when `rownumber` is
`None`. -/
def claimedRowcount (rowcount : Int) (rownumber : Option Nat) : Int :=
  if 0 ≤ rowcount then rowcount
  else
    match rownumber with
    | some n => (n : Int)
    | none => 0

/-! ### Connection acquisition -/

/-- What `acquire_connection` hands to the `async with` body: either the one
bound connection of a transaction wrapper, serialized by that wrapper's own
lock (`ConnectionWrapper(self._lock, self)`), or a connection checked out of
the client's pool (`PoolConnectionWrapper(self, self._pool_init_lock)`).
Modelled from the spec for the wrapper classes themselves (defined in
`tortoise.backends.base.client`, outside the excerpt): "on enter, if a
dedicated lock is provided (transaction mode) it is acquired to serialize
access to that one connection; if no dedicated connection is bound, it
checks out a connection from the pool". -/
inductive Acquired where
  | bound (lock : Nat) (conn : Nat)
  | pooled (pool : Option Nat)
  deriving DecidableEq, Repr

/-- `TransactionWrapper.acquire_connection`: `ConnectionWrapper(self._lock,
self)` — the wrapper's own bound connection under its own lock. -/
def TxWrapper.acquire_connection (w : TxWrapper) : Acquired :=
  .bound w.lock w.connection

/-- `PsycopgClient.acquire_connection`: `PoolConnectionWrapper(self,
self._pool_init_lock)` — a checkout from the client's pool. -/
def ClientState.acquire_connection (st : ClientState) : Acquired :=
  .pooled st.pool

/-- Whether an acquisition is a pool checkout. -/
def Acquired.isPooled : Acquired → Bool
  | .bound _ _ => false
  | .pooled _ => true

/-- Whether a raised exception is specifically a `DBConnectionError`. -/
def RaisedError.isDbConnectionError : RaisedError → Bool
  | .tortoise .dbConnectionError _ => true
  | _ => false

/-- The chain of nested transaction wrappers obtained by calling
`_in_transaction` `n` times starting from `w`, with `freshLocks` supplying
the identity of each freshly created `asyncio.Lock`. -/
def TxWrapper.nest (w : TxWrapper) (freshLocks : Nat → Nat) : Nat → TxWrapper
  | 0 => w
  | n + 1 => (w.nest freshLocks n).inTransaction (freshLocks n)

lemma TxWrapper.nest_connection (w : TxWrapper) (fl : Nat → Nat) :
    ∀ n, (w.nest fl n).connection = w.connection := by
  intro n
  induction n with
  | zero => rfl
  | succ n ih => simp [TxWrapper.nest, TxWrapper.inTransaction, TxWrapper.mkFrom, ih]

lemma TxWrapper.commit_ok (w w' : TxWrapper) (d : Except BackendError Unit)
    (h : w.commit d = (.ok (), w')) :
    w.transaction.isNone = false ∧ w.finalized = false ∧ w' = { w with finalized := true } := by
  by_cases ht : w.transaction.isNone
  · simp [TxWrapper.commit, ht] at h
  · by_cases hf : w.finalized
    · simp [TxWrapper.commit, ht, hf] at h
    · cases d with
      | ok u =>
          cases u
          simp only [TxWrapper.commit, ht, if_false, hf, Bool.false_eq_true,
            Prod.mk.injEq, if_neg] at h
          exact ⟨by simp [ht], by simp [hf], h.2.symm⟩
      | error e => simp [TxWrapper.commit, ht, hf] at h

lemma TxWrapper.rollback_ok (w w' : TxWrapper) (d : Except BackendError Unit)
    (h : w.rollback d = (.ok (), w')) :
    w.transaction.isNone = false ∧ w.finalized = false ∧ w' = { w with finalized := true } := by
  by_cases ht : w.transaction.isNone
  · simp [TxWrapper.rollback, ht] at h
  · by_cases hf : w.finalized
    · simp [TxWrapper.rollback, ht, hf] at h
    · cases d with
      | ok u =>
          cases u
          simp only [TxWrapper.rollback, ht, if_false, hf, Bool.false_eq_true,
            Prod.mk.injEq, if_neg] at h
          exact ⟨by simp [ht], by simp [hf], h.2.symm⟩
      | error e => simp [TxWrapper.rollback, ht, hf] at h

/-! ### Claim theorems -/

/-- C1: On every `TransactionWrapper`, calling `commit` or `rollback` while the
transaction handle is still `None` (before `begin`) raises
`TransactionManagementError("Transaction is in invalid state")`; calling either
after a prior `commit` or `rollback` succeeded raises
`TransactionManagementError("Transaction already finalised")`; and along any
sequence of `begin`/`commit`/`rollback` calls starting from a non-finalized
wrapper, at most one `commit`/`rollback` call ever succeeds. -/
theorem c1_finalize_once :
    (∀ (w : TxWrapper) (d : Except BackendError Unit), w.transaction = none →
        (w.commit d).1 = .error invalidStateErr ∧
        (w.rollback d).1 = .error invalidStateErr) ∧
    (∀ (w w' : TxWrapper) (d d' : Except BackendError Unit),
        (w.commit d = (.ok (), w') ∨ w.rollback d = (.ok (), w')) →
        (w'.commit d').1 = .error finalisedErr ∧
        (w'.rollback d').1 = .error finalisedErr) ∧
    (∀ (w : TxWrapper) (ops : List TxOp), w.finalized = false →
        finalizeSuccesses w ops ≤ 1) := by
  refine ⟨?_, ?_, ?_⟩
  · intro w d h
    constructor <;> simp [TxWrapper.commit, TxWrapper.rollback, h]
  · intro w w' d d' h
    have hw' : w'.transaction.isNone = false ∧ w'.finalized = true := by
      rcases h with h | h
      · obtain ⟨ht, _, hw⟩ := TxWrapper.commit_ok w w' d h
        subst hw; exact ⟨ht, rfl⟩
      · obtain ⟨ht, _, hw⟩ := TxWrapper.rollback_ok w w' d h
        subst hw; exact ⟨ht, rfl⟩
    constructor <;>
      simp [TxWrapper.commit, TxWrapper.rollback, hw'.1, hw'.2]
  · intro w ops h
    exact at_most_one_finalize ops w h

/-- C1 witness: concrete instances — commit before begin on a fresh wrapper is
rejected as invalid state, commit on a finalized wrapper is rejected as
already finalised, and a begin-commit-commit run has at most one success. -/
theorem c1_finalize_once_witness :
    ((TxWrapper.mkFrom 0 0).commit (.ok ())).1 = .error invalidStateErr ∧
    ((⟨0, 0, some 1, true⟩ : TxWrapper).commit (.ok ())).1 = .error finalisedErr ∧
    finalizeSuccesses (TxWrapper.mkFrom 0 0)
      [.beginOp 1 (.ok ()), .commitOp (.ok ()), .commitOp (.ok ())] ≤ 1 :=
  ⟨(c1_finalize_once.1 (TxWrapper.mkFrom 0 0) (.ok ()) rfl).1,
   (c1_finalize_once.2.1 ⟨0, 0, some 1, false⟩ ⟨0, 0, some 1, true⟩ (.ok ()) (.ok ())
      (Or.inl rfl)).1,
   c1_finalize_once.2.2 (TxWrapper.mkFrom 0 0) _ rfl⟩

/-- C10: commit/rollback are atomic with respect to the finalized flag — if
the driver-level `__aexit__` raises, the call returns that error with the
wrapper state unchanged, in particular `finalized` is still `false`. -/
theorem c10_failed_finalize_not_finalized (w : TxWrapper) (e : BackendError)
    (ht : w.transaction.isNone = false) (hf : w.finalized = false) :
    w.commit (.error e) = (.error (.backend e), w) ∧
    w.rollback (.error e) = (.error (.backend e), w) ∧
    (w.commit (.error e)).2.finalized = false ∧
    (w.rollback (.error e)).2.finalized = false := by
  simp [TxWrapper.commit, TxWrapper.rollback, ht, hf]

/-- C10 witness: a concrete active wrapper whose driver-level commit fails
stays non-finalized. -/
theorem c10_failed_finalize_not_finalized_witness :
    (⟨0, 0, some 1, false⟩ : TxWrapper).commit (.error .connectionFailure) =
      (.error (.backend .connectionFailure), ⟨0, 0, some 1, false⟩) ∧
    ((⟨0, 0, some 1, false⟩ : TxWrapper).commit (.error .connectionFailure)).2.finalized = false :=
  ⟨(c10_failed_finalize_not_finalized ⟨0, 0, some 1, false⟩ .connectionFailure rfl rfl).1,
   (c10_failed_finalize_not_finalized ⟨0, 0, some 1, false⟩ .connectionFailure rfl rfl).2.2.1⟩

/-- C2 counterexample: a backend exception in the claim's
"cannot-reach/cannot-authenticate" category (a connection failure, an invalid
password) is not re-raised by the exception translator as `DBConnectionError`
or any taxonomy error at all — it propagates unchanged as a driver-specific
exception. -/
theorem c2_translator_counterexample :
    translateError .invalidPassword = .backend .invalidPassword ∧
    (translateError .invalidPassword).isTaxonomy = false ∧
    translateError .connectionFailure = .backend .connectionFailure ∧
    (translateError .connectionFailure).isTaxonomy = false := by decide

/-- C2 amended: the exception translator re-raises every caught backend
exception as exactly one of three taxonomy errors (`OperationalError` for the
caught malformed-SQL/access-violation/unknown-table/data-exception classes,
`IntegrityError` for constraint violations, `TransactionManagementError` for
the caught invalid-transaction-state classes); it never produces
`DBConnectionError`; and every uncaught backend exception — including
connection and authentication failures — propagates unchanged. -/
theorem c2_translator_amended (e : BackendError) :
    (operationalCatch e = true →
        translateError e = .tortoise .operationalError (backendMsg e)) ∧
    (integrityCatch e = true →
        translateError e = .tortoise .integrityError (backendMsg e)) ∧
    (transactionCatch e = true →
        translateError e = .tortoise .transactionManagementError (backendMsg e)) ∧
    (operationalCatch e = false → integrityCatch e = false → transactionCatch e = false →
        translateError e = .backend e) ∧
    (translateError e).isDbConnectionError = false := by
  cases e <;> simp [translateError, operationalCatch, integrityCatch, transactionCatch,
    RaisedError.isDbConnectionError]

/-- C2 witness: one concrete caught exception per category, and one uncaught
exception propagating unchanged. -/
theorem c2_translator_amended_witness :
    translateError .undefinedTable = .tortoise .operationalError (backendMsg .undefinedTable) ∧
    translateError .uniqueViolation = .tortoise .integrityError (backendMsg .uniqueViolation) ∧
    translateError .inFailedSqlTransaction =
      .tortoise .transactionManagementError (backendMsg .inFailedSqlTransaction) ∧
    translateError .invalidPassword = .backend .invalidPassword :=
  ⟨(c2_translator_amended .undefinedTable).1 rfl,
   (c2_translator_amended .uniqueViolation).2.1 rfl,
   (c2_translator_amended .inFailedSqlTransaction).2.2.1 rfl,
   (c2_translator_amended .invalidPassword).2.2.2.1 rfl rfl rfl⟩

/-- C3: every transaction wrapper derived by `n` applications of
`_in_transaction` is bound to the identical underlying connection as the
original wrapper; its `acquire_connection` yields that bound connection under
the wrapper's own lock, never a pool checkout; and a wrapper constructed from
a parent takes exactly the parent's connection. -/
theorem c3_nested_same_connection (w : TxWrapper) (fl : Nat → Nat) (n : Nat)
    (parentConn freshLock : Nat) :
    (w.nest fl n).connection = w.connection ∧
    (w.nest fl n).acquire_connection = .bound (w.nest fl n).lock w.connection ∧
    ((w.nest fl n).acquire_connection).isPooled = false ∧
    (TxWrapper.mkFrom parentConn freshLock).connection = parentConn := by
  refine ⟨TxWrapper.nest_connection w fl n, ?_, ?_, rfl⟩
  · simp [TxWrapper.acquire_connection, TxWrapper.nest_connection w fl n]
  · simp [TxWrapper.acquire_connection, Acquired.isPooled]

/-! ### Concrete fixtures for witnesses and counterexamples -/

/-- A concrete client configuration. -/
def cfg0 : ClientConfig :=
  { host := "localhost", port := 5432, user := "postgres", password := "secret",
    database := "db", schema := none, applicationName := "app",
    poolMinsize := 1, poolMaxsize := 5, extraTimeout := none, extraSSL := none }

/-- A concrete `server_settings` dict before `create_connection` runs. -/
def settings0 : ServerSettings :=
  { searchPathOption := none, applicationName := "", sslmode := none }

/-- A fresh client state with no pool. -/
def st0 : ClientState :=
  { pool := none, template := none, settings := settings0,
    poolsClosed := [], poolsMade := [], lastOpenTimeout := none }

/-- A client state already holding pool `0`. -/
def stWithPool : ClientState := { st0 with pool := some 0 }

/-- The parameter template `create_connection cfg0` would store. -/
def tmpl0 : PoolTemplate :=
  PsycopgClient.builtTemplate cfg0 true (PsycopgClient.builtSettings cfg0 settings0)

/-- A client state holding pool `0` together with its stored template. -/
def stWithTemplate : ClientState := { stWithPool with template := some tmpl0 }

/-- C4: with no pool yet, `create_connection` turns both an
`InvalidCatalogName` (database does not exist) and a `PoolTimeout`
(database unreachable within the timeout) from pool construction or from the
liveness probe into `DBConnectionError` for the target database; the liveness
probe `open(wait=True, timeout=...)` uses the same timeout that is stored in
the pool parameter template, namely the configured `extra` timeout defaulting
to `default_timeout = 30`. -/
theorem c4_create_connection_db_error (cfg : ClientConfig) (withDb : Bool)
    (st : ClientState) (newPoolId : Nat) (e : BackendError)
    (hpool : st.pool = none)
    (he : e = .invalidCatalogName ∨ e = .poolTimeout) :
    (PsycopgClient.create_connection cfg withDb st newPoolId (.errAtOpen e)).1 =
      .error (.tortoise .dbConnectionError cfg.database) ∧
    (PsycopgClient.create_connection cfg withDb st newPoolId (.errAtCreate e)).1 =
      .error (.tortoise .dbConnectionError cfg.database) ∧
    (PsycopgClient.create_connection cfg withDb st newPoolId (.errAtOpen e)).2.lastOpenTimeout =
      some (cfg.extraTimeout.getD defaultTimeout) ∧
    defaultTimeout = 30 ∧
    (PsycopgClient.create_connection cfg withDb st newPoolId (.errAtOpen e)).2.template =
      some (PsycopgClient.builtTemplate cfg withDb (PsycopgClient.builtSettings cfg st.settings)) ∧
    (PsycopgClient.builtTemplate cfg withDb (PsycopgClient.builtSettings cfg st.settings)).timeout =
      cfg.extraTimeout.getD defaultTimeout := by
  rcases he with rfl | rfl <;>
    simp [PsycopgClient.create_connection, PsycopgClient.createConnectionBody,
      PsycopgClient.builtTemplate, hpool, translateRaised, defaultTimeout]

/-- C4 witness: a concrete fresh client whose liveness probe times out gets a
`DBConnectionError`, with the probe timeout defaulting to 30. -/
theorem c4_create_connection_db_error_witness :
    st0.pool = none ∧
    (PsycopgClient.create_connection cfg0 true st0 1 (.errAtOpen .poolTimeout)).1 =
      .error (.tortoise .dbConnectionError cfg0.database) ∧
    (PsycopgClient.create_connection cfg0 true st0 1 (.errAtOpen .poolTimeout)).2.lastOpenTimeout =
      some (cfg0.extraTimeout.getD defaultTimeout) :=
  ⟨rfl,
   (c4_create_connection_db_error cfg0 true st0 1 .poolTimeout rfl (Or.inr rfl)).1,
   (c4_create_connection_db_error cfg0 true st0 1 .poolTimeout rfl (Or.inr rfl)).2.2.1⟩

/-- C5 counterexample: for a statement for which the driver reports no count
(DB-API `rowcount = -1`, e.g. DDL), `execute_query` returns `-1` — the raw
`rowcount` — whereas the claim prescribes falling back to the returned-row
position (here 0); the two results differ. -/
def curNoCount : CursorState :=
  { rowcount := -1, rownumber := some 0, pgresult := some .commandOk, rows := [] }

/-- C5 counterexample theorem: code result is `-1`, claimed result is `0`. -/
theorem c5_rowcount_counterexample :
    (executeQueryResult curNoCount).1 = -1 ∧
    claimedRowcount curNoCount.rowcount curNoCount.rownumber = 0 ∧
    (executeQueryResult curNoCount).1 <
      claimedRowcount curNoCount.rowcount curNoCount.rownumber := by
  decide

/-- C5 amended: the returned row count equals the driver-reported `rowcount`
whenever that value is nonzero — including the driver's `-1` "no count
available" marker, which is returned as-is; only when the driver reports `0`
does the count fall back to the cursor's returned-row position (zero when
there is no result to fetch); rows are returned exactly when the result
status is `TUPLES_OK`. -/
theorem c5_rowcount_amended (cur : CursorState) :
    (cur.rowcount ≠ 0 → (executeQueryResult cur).1 = cur.rowcount) ∧
    (cur.rowcount = 0 →
      (executeQueryResult cur).1 =
        (match cur.rownumber with
         | some n => (n : Int)
         | none => 0)) ∧
    (executeQueryResult cur).2 =
      (if cur.pgresult = some ExecStatus.tuplesOk then cur.rows else []) := by
  refine ⟨?_, ?_, rfl⟩
  · intro h
    simp [executeQueryResult, pyIntOr, h]
  · intro h
    simp only [executeQueryResult, pyIntOr, h]
    cases cur.rownumber with
    | none => simp
    | some n =>
        by_cases hn : n = 0 <;> simp [hn]

/-- C5 witness: a query with a nonzero driver-reported count returns that
count; one with a zero driver-reported count returns the row position. -/
theorem c5_rowcount_amended_witness :
    (executeQueryResult ⟨7, some 0, some .tuplesOk, [10, 11]⟩).1 = 7 ∧
    (executeQueryResult ⟨0, some 0, some .tuplesOk, []⟩).1 = 0 :=
  ⟨(c5_rowcount_amended ⟨7, some 0, some .tuplesOk, [10, 11]⟩).1 (by decide),
   (c5_rowcount_amended ⟨0, some 0, some .tuplesOk, []⟩).2.1 rfl⟩

/-- C6 counterexample: with a pool already present, `create_connection` fails
with a plain `RuntimeError("Connection pool already created")` — which is not
one of the four taxonomy errors — leaving the state unchanged. -/
theorem c6_pool_exists_counterexample :
    (PsycopgClient.create_connection cfg0 true stWithPool 1 .ok).1 =
      .error (.runtime "Connection pool already created") ∧
    (PsycopgClient.create_connection cfg0 true stWithPool 1 .ok).2 = stWithPool ∧
    (RaisedError.runtime "Connection pool already created").isTaxonomy = false := by
  decide

/-- C6 amended: if a pool already exists, `create_connection` fails and leaves
the client state (including the existing pool) unchanged, but the failure is a
plain `RuntimeError` that the exception translator does not convert — it is
not reported as one of the four taxonomy errors. -/
theorem c6_pool_exists_amended (cfg : ClientConfig) (withDb : Bool) (st : ClientState)
    (newPoolId : Nat) (res : PoolOpenResult) (h : st.pool.isSome = true) :
    PsycopgClient.create_connection cfg withDb st newPoolId res =
      (.error (.runtime "Connection pool already created"), st) ∧
    (RaisedError.runtime "Connection pool already created").isTaxonomy = false := by
  constructor
  · simp [PsycopgClient.create_connection, PsycopgClient.createConnectionBody, h,
      translateRaised]
  · rfl

/-- C6 witness: concrete client with an existing pool. -/
theorem c6_pool_exists_amended_witness :
    PsycopgClient.create_connection cfg0 true stWithPool 1 .ok =
      (.error (.runtime "Connection pool already created"), stWithPool) :=
  (c6_pool_exists_amended cfg0 true stWithPool 1 .ok rfl).1

/-- C7: `_close` nulls the internal pool reference before the suspending
`pool.close(10)`: every state observable at a suspension point of `_close`
already has `pool = none`, the saved pool object is closed only in the second
observable state (after the reference was nulled), and when no pool exists
`_close` changes nothing. -/
theorem c7_close_nulls_first (st : ClientState) (p : Nat)
    (hp : st.pool = some p) (hnc : st.poolsClosed.contains p = false) :
    (∀ s ∈ PsycopgClient.closeStates st, s.pool = none) ∧
    PsycopgClient.closeStates st =
      [{ st with pool := none },
       { st with pool := none, poolsClosed := p :: st.poolsClosed }] ∧
    ({ st with pool := none } : ClientState).poolsClosed.contains p = false ∧
    (∀ st' : ClientState, st'.pool = none → PsycopgClient.closeStates st' = [st']) := by
  refine ⟨?_, ?_, ?_, ?_⟩
  · intro s hs
    simp only [PsycopgClient.closeStates, hp, List.mem_cons, List.mem_singleton,
      List.not_mem_nil, or_false] at hs
    rcases hs with rfl | rfl <;> rfl
  · simp [PsycopgClient.closeStates, hp]
  · simpa using hnc
  · intro st' h'
    simp [PsycopgClient.closeStates, h']

/-- C7 witness: concrete close traces with and without a pool. -/
theorem c7_close_nulls_first_witness :
    PsycopgClient.closeStates stWithPool =
      [{ stWithPool with pool := none },
       { stWithPool with pool := none, poolsClosed := 0 :: stWithPool.poolsClosed }] ∧
    PsycopgClient.closeStates st0 = [st0] :=
  ⟨(c7_close_nulls_first stWithPool 0 rfl rfl).2.1,
   (c7_close_nulls_first stWithPool 0 rfl rfl).2.2.2 st0 rfl⟩

/-- C8 counterexample: during `_expire_connections`, at the suspension point
where the replacement pool is being constructed, a concurrent operation
observes the old pool — already closed — as the client's current pool: the
swap is not atomic in the claimed sense. -/
theorem c8_expire_counterexample :
    ({ stWithTemplate with poolsClosed := [0] } : ClientState) ∈
      PsycopgClient.expireStates stWithTemplate 1 ∧
    ({ stWithTemplate with poolsClosed := [0] } : ClientState).pool = some 0 ∧
    ({ stWithTemplate with poolsClosed := [0] } : ClientState).poolsClosed.contains 0 = true := by
  decide

/-- C8 amended: `_expire_connections` closes the current pool and then
installs a freshly constructed pool built from the stored parameter template
(identical parameters), but not atomically: while the old pool is closed and
while the replacement is constructed, the client's current pool reference
still points at the old pool (already closed during the second await); only
the final assignment installs the fresh pool. -/
theorem c8_expire_amended (st : ClientState) (p newPoolId : Nat) (tmpl : PoolTemplate)
    (hp : st.pool = some p) (ht : st.template = some tmpl) :
    PsycopgClient.expireStates st newPoolId =
      [st,
       { st with poolsClosed := p :: st.poolsClosed },
       { st with poolsClosed := p :: st.poolsClosed,
                 pool := some newPoolId,
                 poolsMade := (newPoolId, tmpl) :: st.poolsMade }] ∧
    ({ st with poolsClosed := p :: st.poolsClosed,
               pool := some newPoolId,
               poolsMade := (newPoolId, tmpl) :: st.poolsMade } : ClientState).pool =
      some newPoolId ∧
    (newPoolId, tmpl) ∈
      ({ st with poolsClosed := p :: st.poolsClosed,
                 pool := some newPoolId,
                 poolsMade := (newPoolId, tmpl) :: st.poolsMade } : ClientState).poolsMade ∧
    ({ st with poolsClosed := p :: st.poolsClosed } : ClientState).pool = some p ∧
    p ∈ ({ st with poolsClosed := p :: st.poolsClosed } : ClientState).poolsClosed := by
  refine ⟨?_, rfl, ?_, ?_, ?_⟩
  · simp [PsycopgClient.expireStates, hp, ht]
  · exact List.mem_cons_self _ _
  · exact hp
  · exact List.mem_cons_self _ _

/-- C8 witness: concrete expire trace. -/
theorem c8_expire_amended_witness :
    PsycopgClient.expireStates stWithTemplate 1 =
      [stWithTemplate,
       { stWithTemplate with poolsClosed := 0 :: stWithTemplate.poolsClosed },
       { stWithTemplate with poolsClosed := 0 :: stWithTemplate.poolsClosed,
                             pool := some 1,
                             poolsMade := (1, tmpl0) :: stWithTemplate.poolsMade }] :=
  (c8_expire_amended stWithTemplate 0 1 tmpl0 rfl rfl).1

/-- C9: on a fresh client (no pool, no `sslmode` yet), the `sslmode` written
into the server settings — and hence the stored pool parameter template — is
determined solely by the supplied `ssl` entry: a context with hostname
verification gives `verify-full`, a supplied context without hostname
validation gives `require`, and no supplied context leaves `sslmode` unset. -/
theorem c9_sslmode (cfg : ClientConfig) (withDb : Bool) (st : ClientState)
    (newPoolId : Nat) (res : PoolOpenResult)
    (hpool : st.pool = none) (hmode : st.settings.sslmode = none) :
    (PsycopgClient.create_connection cfg withDb st newPoolId res).2.settings.sslmode =
      sslmodeOf cfg.extraSSL ∧
    ((PsycopgClient.create_connection cfg withDb st newPoolId res).2.template).map
      (fun t => t.settings.sslmode) = some (sslmodeOf cfg.extraSSL) ∧
    sslmodeOf (some (.context true)) = some "verify-full" ∧
    sslmodeOf (some (.context false)) = some "require" ∧
    sslmodeOf none = none := by
  have hs : (PsycopgClient.builtSettings cfg st.settings).sslmode = sslmodeOf cfg.extraSSL := by
    simp only [PsycopgClient.builtSettings]
    cases h : sslmodeOf cfg.extraSSL with
    | none => simpa [h] using hmode
    | some m => simp [h]
  refine ⟨?_, ?_, rfl, rfl, rfl⟩ <;>
    cases res <;>
      simp [PsycopgClient.create_connection, PsycopgClient.createConnectionBody,
        PsycopgClient.builtTemplate, hpool, hs, apply_ite]

/-- C9 witness: a certificate-and-hostname-validating context yields
`verify-full` on a concrete fresh client. -/
theorem c9_sslmode_witness :
    (PsycopgClient.create_connection { cfg0 with extraSSL := some (.context true) }
        true st0 1 .ok).2.settings.sslmode =
      sslmodeOf ({ cfg0 with extraSSL := some (.context true) } : ClientConfig).extraSSL ∧
    sslmodeOf ({ cfg0 with extraSSL := some (.context true) } : ClientConfig).extraSSL =
      some "verify-full" :=
  ⟨(c9_sslmode { cfg0 with extraSSL := some (.context true) } true st0 1 .ok rfl rfl).1,
   rfl⟩

end TortoisePsycopg
